import Mathlib

/-!
Verification of the WOD (word-of-the-day bot) repository, `src/main.py`.

The script keeps two database tables — `users` (chat_id UNIQUE, subscribed,
created_at) and `content` (word UNIQUE, meaning, example, created_at) — and
builds a pipeline: `generate_word` (HTTP call + free-text parsing),
`word_exists` / `save_content` (content store), `get_new_unique_word`
(bounded retry loop), `subscribe_user` / `unsubscribe_user` /
`get_subscribed_users` (subscriber registry) and `send_daily_word`
(per-recipient broadcast with per-send exception isolation).

Embedding choices:
* Text is `List Char` (`Str`), because the Python code manipulates strings
  with `strip`, `split("\n\n")`, `replace` and SQL `LOWER`; these are
  re-implemented structurally below so that every definition is executable
  in the kernel.
* Database tables are Lean lists of records, in insertion order; SQL
  statements become list operations with the same observable behaviour
  (`INSERT ... ON CONFLICT DO UPDATE` = update-if-present else append,
  `UPDATE ... WHERE` = map over matching rows, `SELECT ... WHERE` = filter).
* The external generator is a script `Nat → Option (Str × Str × Str)`
  giving the result of the i-th `generate_word` call of an invocation;
  `generate_word` itself is modelled separately as the pure transform from
  (HTTP status, message content text) to the optional triple, abstracting
  the JSON envelope `response.json()["choices"][0]["message"]["content"]`.
* A raised/propagated database error is `Except`; the `content.word UNIQUE`
  constraint of the schema (line 35 of main.py) is *case-sensitive*, as
  PostgreSQL `UNIQUE` on `TEXT` is, while `word_exists` compares with
  `LOWER` on both sides.
-/

namespace WOD

/-- Text, embedded as its character list. -/
abbrev Str := List Char

/-- SQL `LOWER(...)`: character-wise lowercasing. -/
def lower (s : Str) : Str := s.map Char.toLower

/-- The whitespace set of Python `str.strip()`. -/
def isStripChar (c : Char) : Bool :=
  c = ' ' || c = '\t' || c = '\n' || c = '\r' || c = '\x0b' || c = '\x0c'

/-- Python `str.strip()`: drop leading and trailing whitespace. -/
def strip (s : Str) : Str :=
  ((s.dropWhile isStripChar).reverse.dropWhile isStripChar).reverse

/-- Python `content.split("\n\n")`: split on non-overlapping occurrences of
two consecutive newlines, scanning left to right; the result is never empty
and an input without the separator yields the singleton list. -/
def split2nl : Str → List Str
  | [] => [[]]
  | '\n' :: '\n' :: rest => [] :: split2nl rest
  | c :: rest =>
    match split2nl rest with
    | [] => [[c]]
    | p :: ps => (c :: p) :: ps

/-- Fuel-driven worker for `replaceAll`; the fuel (initially the length of
the subject) bounds the left-to-right scan. -/
def replaceAllAux (pat : Str) : Nat → Str → Str
  | _, [] => []
  | 0, s => s
  | fuel + 1, c :: rest =>
    if pat ≠ [] ∧ pat.isPrefixOf (c :: rest) then
      replaceAllAux pat fuel (List.drop pat.length (c :: rest))
    else
      c :: replaceAllAux pat fuel rest

/-- Python `s.replace(pat, "")`: delete every non-overlapping occurrence of
`pat`, scanning left to right. -/
def replaceAll (s pat : Str) : Str := replaceAllAux pat s.length s

/-- A row of the `content` table (main.py lines 32-40); `id` is surrogate
and never read, so it is omitted. `example` is a Lean keyword, hence the
field name `example_text`. -/
structure WordEntry where
  word : Str
  meaning : Str
  example_text : Str
  created_at : Nat
deriving Repr, DecidableEq

/-- A row of the `users` table (main.py lines 22-30). -/
structure UserRec where
  chat_id : Int
  subscribed : Bool
  created_at : Nat
deriving Repr, DecidableEq

/-- Function `word_exists` (main.py lines 68-73):
`SELECT 1 FROM content WHERE LOWER(word) = LOWER(%s)` is non-empty. -/
def word_exists (store : List WordEntry) (word : Str) : Bool :=
  store.any (fun e => lower e.word == lower word)

/-- Function `save_content` (main.py lines 75-80): plain `INSERT INTO content`;
the `UNIQUE` constraint on `word` (case-sensitive, as PostgreSQL `UNIQUE`
on `TEXT` is) raises on an exact duplicate, which the caller does not
catch, hence the `Except`. -/
def save_content (store : List WordEntry) (word meaning example_text : Str)
    (now : Nat) : Except Str (List WordEntry) :=
  if store.any (fun e => e.word == word) then
    Except.error "duplicate key value violates unique constraint".data
  else
    Except.ok (store ++ [⟨word, meaning, example_text, now⟩])

/-- Function `subscribe_user` (main.py lines 44-51):
`INSERT INTO users (chat_id) VALUES (%s) ON CONFLICT (chat_id) DO UPDATE
SET subscribed = TRUE`. On conflict only `subscribed` is written; otherwise
a fresh row is appended with the column defaults. -/
def subscribe_user (db : List UserRec) (c : Int) (now : Nat) : List UserRec :=
  if db.any (fun u => u.chat_id == c) then
    db.map (fun u => if u.chat_id == c then { u with subscribed := true } else u)
  else
    db ++ [{ chat_id := c, subscribed := true, created_at := now }]

/-- Function `unsubscribe_user` (main.py lines 53-57):
`UPDATE users SET subscribed = FALSE WHERE chat_id = %s`; zero matching
rows is a silent no-op. -/
def unsubscribe_user (db : List UserRec) (c : Int) : List UserRec :=
  db.map (fun u => if u.chat_id == c then { u with subscribed := false } else u)

/-- Function `get_subscribed_users` (main.py lines 59-64):
`SELECT chat_id FROM users WHERE subscribed = TRUE`. -/
def get_subscribed_users (db : List UserRec) : List Int :=
  (db.filter (fun u => u.subscribed)).map (fun u => u.chat_id)

/-- The HTTP response of the text-generation service, reduced to what
`generate_word` reads: the status code and the message content text
(the JSON envelope `response.json()["choices"][0]["message"]["content"]`
is abstracted away). -/
structure HttpResponse where
  status_code : Nat
  content : Str

/-- Function `generate_word` (main.py lines 84-124), the pure part: on status 200,
strip the content, split it on blank lines, and read the first three parts
with their label prefixes removed; fewer than three parts raises an
`IndexError` that the bare `except` turns into `(None, None, None)`; a
non-200 status also yields `(None, None, None)`. -/
def generate_word (resp : HttpResponse) : Option (Str × Str × Str) :=
  if resp.status_code = 200 then
    let content := strip resp.content
    match split2nl content with
    | p0 :: p1 :: p2 :: _ =>
      some (strip (replaceAll p0 "Word: ".data),
            strip (replaceAll p1 "Meaning: ".data),
            strip (replaceAll p2 "Example: ".data))
    | _ => none
  else none

/-- Worker for `get_new_unique_word` (main.py lines 128-139). `gen i` is
the result of the i-th `generate_word` call of this invocation, `fuel` the
remaining iterations of `for _ in range(5)`. Returns the propagated
outcome (result triple option and final store, or an uncaught database
error) together with the number of generator calls made. Python's
`if not word: continue` is falsy both for `None` and for the empty
string, hence the two continue branches. -/
def get_new_unique_word_aux (gen : Nat → Option (Str × Str × Str)) (now : Nat) :
    Nat → Nat → List WordEntry →
    Except Str (Option (Str × Str × Str) × List WordEntry) × Nat
  | _, 0, store => (Except.ok (none, store), 0)
  | i, fuel + 1, store =>
    match gen i with
    | none =>
      let r := get_new_unique_word_aux gen now (i + 1) fuel store
      (r.1, r.2 + 1)
    | some (word, meaning, example_text) =>
      if word = [] then
        let r := get_new_unique_word_aux gen now (i + 1) fuel store
        (r.1, r.2 + 1)
      else if word_exists store word then
        let r := get_new_unique_word_aux gen now (i + 1) fuel store
        (r.1, r.2 + 1)
      else
        match save_content store word meaning example_text now with
        | Except.error e => (Except.error e, 1)
        | Except.ok store2 =>
          (Except.ok (some (word, meaning, example_text), store2), 1)

/-- Function `get_new_unique_word` (main.py lines 128-139): up to 5 attempts. -/
def get_new_unique_word (gen : Nat → Option (Str × Str × Str))
    (store : List WordEntry) (now : Nat) :
    Except Str (Option (Str × Str × Str) × List WordEntry) × Nat :=
  get_new_unique_word_aux gen now 0 5 store

/-- The delivery loop of `send_daily_word` (main.py lines 160-166):
`send c` is the outcome of `application.bot.send_message` for chat `c`;
an exception is caught and logged (`print(f"Failed to send to ...")`) and
the loop continues. Returns the chat ids attempted, in order, and the log
lines produced. -/
def send_daily_word_loop (send : Int → Except Str Unit) :
    List Int → List Int × List Str
  | [] => ([], [])
  | c :: rest =>
    match send c with
    | Except.ok _ =>
      let r := send_daily_word_loop send rest
      (c :: r.1, r.2)
    | Except.error e =>
      let r := send_daily_word_loop send rest
      (c :: r.1, ("Failed to send to ".data ++ (toString c).data ++ ": ".data ++ e) :: r.2)

/-- An attempt is unsuccessful for the resolver when the generator fails,
yields an empty word (falsy in Python), or yields a word already present
case-insensitively. Stated against a fixed store, which is adequate
because unsuccessful attempts leave the store unchanged. -/
def attempt_fails (gen : Nat → Option (Str × Str × Str))
    (store : List WordEntry) (i : Nat) : Bool :=
  match gen i with
  | none => true
  | some (word, _, _) => word == [] || word_exists store word

/-- When no entry matches the word case-insensitively, no entry matches it
exactly either, so the `INSERT` succeeds and appends one row. -/
theorem save_content_of_not_exists (store : List WordEntry)
    (w m x : Str) (now : Nat) (h : word_exists store w = false) :
    save_content store w m x now = Except.ok (store ++ [⟨w, m, x, now⟩]) := by
  have hnone : store.any (fun e => e.word == w) = false := by
    rw [List.any_eq_false]
    intro e he
    simp only [beq_iff_eq]
    intro hew
    have htrue : word_exists store w = true := by
      rw [word_exists, List.any_eq_true]
      exact ⟨e, he, by simp [hew]⟩
    rw [htrue] at h
    cases h
  simp [save_content, hnone]

/-- Shape of a resolver run: either it reports failure and the store is
untouched, or it returns a triple whose word is nonempty and absent
(case-insensitively) from the initial store, appending exactly that one
entry; a database error is never propagated. -/
theorem get_new_unique_word_aux_shape (gen : Nat → Option (Str × Str × Str))
    (now : Nat) : ∀ (fuel i : Nat) (store : List WordEntry),
    (get_new_unique_word_aux gen now i fuel store).1 = Except.ok (none, store) ∨
    ∃ w m x, w ≠ [] ∧ word_exists store w = false ∧
      (get_new_unique_word_aux gen now i fuel store).1
        = Except.ok (some (w, m, x), store ++ [⟨w, m, x, now⟩]) := by
  intro fuel
  induction fuel with
  | zero => intro i store; left; rfl
  | succ fuel ih =>
    intro i store
    rcases hg : gen i with _ | ⟨w, m, x⟩
    · simpa [get_new_unique_word_aux, hg] using ih (i + 1) store
    · by_cases hw : w = []
      · simpa [get_new_unique_word_aux, hg, hw] using ih (i + 1) store
      · by_cases hex : word_exists store w = true
        · simpa [get_new_unique_word_aux, hg, hw, hex] using ih (i + 1) store
        · have hex' : word_exists store w = false := by
            cases h : word_exists store w
            · rfl
            · exact absurd h hex
          right
          refine ⟨w, m, x, hw, hex', ?_⟩
          simp [get_new_unique_word_aux, hg, hw, hex',
            save_content_of_not_exists store w m x now hex']

/-- The resolver makes at most `fuel` generator calls. -/
theorem get_new_unique_word_aux_count (gen : Nat → Option (Str × Str × Str))
    (now : Nat) : ∀ (fuel i : Nat) (store : List WordEntry),
    (get_new_unique_word_aux gen now i fuel store).2 ≤ fuel := by
  intro fuel
  induction fuel with
  | zero => intro i store; exact Nat.le_refl 0
  | succ fuel ih =>
    intro i store
    rcases hg : gen i with _ | ⟨w, m, x⟩
    · simpa [get_new_unique_word_aux, hg] using Nat.succ_le_succ (ih (i + 1) store)
    · by_cases hw : w = []
      · simpa [get_new_unique_word_aux, hg, hw] using Nat.succ_le_succ (ih (i + 1) store)
      · by_cases hex : word_exists store w = true
        · simpa [get_new_unique_word_aux, hg, hw, hex] using
            Nat.succ_le_succ (ih (i + 1) store)
        · have hex' : word_exists store w = false := by
            cases h : word_exists store w
            · rfl
            · exact absurd h hex
          simp [get_new_unique_word_aux, hg, hw, hex',
            save_content_of_not_exists store w m x now hex']

/-- When every attempt in the window is unsuccessful, the resolver burns
all its fuel, reports failure, and leaves the store unchanged. -/
theorem get_new_unique_word_aux_exhaust (gen : Nat → Option (Str × Str × Str))
    (now : Nat) (store : List WordEntry) :
    ∀ (fuel i : Nat),
    (∀ j, i ≤ j → j < i + fuel → attempt_fails gen store j = true) →
    get_new_unique_word_aux gen now i fuel store = (Except.ok (none, store), fuel) := by
  intro fuel
  induction fuel with
  | zero => intro i _; rfl
  | succ fuel ih =>
    intro i h
    have hi : attempt_fails gen store i = true := h i (Nat.le_refl i) (by omega)
    have hrec : get_new_unique_word_aux gen now (i + 1) fuel store
        = (Except.ok (none, store), fuel) := by
      refine ih (i + 1) (fun j hj1 hj2 => h j (by omega) (by omega))
    rcases hg : gen i with _ | ⟨w, m, x⟩
    · simp [get_new_unique_word_aux, hg, hrec]
    · rw [attempt_fails, hg, Bool.or_eq_true, beq_iff_eq] at hi
      by_cases hw : w = []
      · simp [get_new_unique_word_aux, hg, hw, hrec]
      · have hex : word_exists store w = true := by
          rcases hi with hi | hi
          · exact absurd hi hw
          · exact hi
        simp [get_new_unique_word_aux, hg, hw, hex, hrec]

/-- Two generator scripts that agree everywhere except that the first may
yield an empty-word triple where the second reports failure drive the
resolver identically: same outcome, same final store, same call count. -/
theorem get_new_unique_word_aux_blank_congr
    (g1 g2 : Nat → Option (Str × Str × Str)) (now : Nat)
    (h : ∀ j, g1 j = g2 j ∨ ((∃ m x, g1 j = some ([], m, x)) ∧ g2 j = none)) :
    ∀ (fuel i : Nat) (store : List WordEntry),
      get_new_unique_word_aux g1 now i fuel store
        = get_new_unique_word_aux g2 now i fuel store := by
  intro fuel
  induction fuel with
  | zero => intro i store; rfl
  | succ fuel ih =>
    intro i store
    rcases h i with heq | ⟨⟨m, x, h1⟩, h2⟩
    · rcases hg : g2 i with _ | ⟨w, m, x⟩
      · have hg1 : g1 i = none := heq.trans hg
        simp [get_new_unique_word_aux, hg, hg1, ih (i + 1) store]
      · have hg1 : g1 i = some (w, m, x) := heq.trans hg
        by_cases hw : w = []
        · simp [get_new_unique_word_aux, hg, hg1, hw, ih (i + 1) store]
        · by_cases hex : word_exists store w = true
          · simp [get_new_unique_word_aux, hg, hg1, hw, hex, ih (i + 1) store]
          · simp [get_new_unique_word_aux, hg, hg1, hw, hex, ih (i + 1) store]
    · simp [get_new_unique_word_aux, h1, h2, ih (i + 1) store]

/-- The broadcast loop attempts every recipient, whatever `send` does. -/
theorem send_daily_word_loop_attempts_all (send : Int → Except Str Unit) :
    ∀ users : List Int, (send_daily_word_loop send users).1 = users := by
  intro users
  induction users with
  | nil => rfl
  | cons u rest ih =>
    cases hs : send u with
    | ok v => simp [send_daily_word_loop, hs, ih]
    | error e => simp [send_daily_word_loop, hs, ih]

/-- A failing recipient leaves its log line in the broadcast loop's log. -/
theorem send_daily_word_loop_logs (send : Int → Except Str Unit) (e : Str) :
    ∀ (users : List Int) (c : Int), c ∈ users → send c = Except.error e →
      ("Failed to send to ".data ++ (toString c).data ++ ": ".data ++ e)
        ∈ (send_daily_word_loop send users).2 := by
  intro users
  induction users with
  | nil => intro c hc; cases hc
  | cons u rest ih =>
    intro c hc hfail
    rcases List.mem_cons.mp hc with rfl | hc2
    · simp [send_daily_word_loop, hfail]
    · cases hs : send u with
      | ok v => simpa [send_daily_word_loop, hs] using ih c hc2 hfail
      | error e2 =>
        have hrec := ih c hc2 hfail
        simp only [send_daily_word_loop, hs]
        exact List.mem_cons_of_mem _ hrec

/-- Mapping a `chat_id`-preserving update across the `users` table does not
change how many rows match a given `chat_id`. -/
theorem filter_chatid_map (db : List UserRec) (c : Int) (f : UserRec → UserRec)
    (hf : ∀ u, (f u).chat_id = u.chat_id) :
    ((db.map f).filter (fun u => u.chat_id == c)).length
      = (db.filter (fun u => u.chat_id == c)).length := by
  rw [List.filter_map, List.length_map]
  congr 1
  apply List.filter_congr
  intro u _
  simp [Function.comp, hf u]

/-- After `unsubscribe_user db c`, every row for chat `c` is unsubscribed. -/
theorem unsubscribe_user_matching_false (db : List UserRec) (c : Int) :
    ∀ u ∈ unsubscribe_user db c, u.chat_id = c → u.subscribed = false := by
  intro u hu huc
  rw [unsubscribe_user] at hu
  rcases List.mem_map.mp hu with ⟨v, _, rfl⟩
  by_cases hvc : v.chat_id = c
  · simp [hvc]
  · simp [hvc] at huc

/-- C1: for every word already present (case-insensitively) in the content
store, an invocation of `get_new_unique_word` never persists a second entry
matching it case-insensitively, whatever casing the generator produces and
whatever its sequence of results: the run always ends without a database
error and the entries matching that word in the final store are exactly
those of the initial store. -/
theorem resolver_no_case_insensitive_duplicate
    (gen : Nat → Option (Str × Str × Str)) (store : List WordEntry)
    (now : Nat) (w0 : Str) (h : word_exists store w0 = true) :
    ∃ r s, (get_new_unique_word gen store now).1 = Except.ok (r, s) ∧
      s.filter (fun e => lower e.word == lower w0)
        = store.filter (fun e => lower e.word == lower w0) := by
  unfold get_new_unique_word
  rcases get_new_unique_word_aux_shape gen now 5 0 store with
    hcase | ⟨w, m, x, hw, hex, hcase⟩
  · exact ⟨none, store, hcase, rfl⟩
  · refine ⟨some (w, m, x), store ++ [⟨w, m, x, now⟩], hcase, ?_⟩
    rw [List.filter_append]
    by_cases hlw : lower w = lower w0
    · exfalso
      rw [word_exists, List.any_eq_true] at h
      rcases h with ⟨e, he, hbeq⟩
      rw [beq_iff_eq] at hbeq
      have : word_exists store w = true := by
        rw [word_exists, List.any_eq_true]
        exact ⟨e, he, by rw [beq_iff_eq, hbeq, hlw]⟩
      rw [this] at hex
      cases hex
    · have hne : (lower w == lower w0) = false := by simp [hlw]
      simp [hne]

theorem resolver_no_case_insensitive_duplicate_witness :
    ∃ r s,
      (get_new_unique_word (fun _ => some ("LUCID".data, "m".data, "x".data))
          [⟨"Lucid".data, "m0".data, "x0".data, 0⟩] 1).1 = Except.ok (r, s) ∧
      s.filter (fun e => lower e.word == lower "lucid".data)
        = [(⟨"Lucid".data, "m0".data, "x0".data, 0⟩ : WordEntry)].filter
            (fun e => lower e.word == lower "lucid".data) :=
  resolver_no_case_insensitive_duplicate
    (fun _ => some ("LUCID".data, "m".data, "x".data))
    [⟨"Lucid".data, "m0".data, "x0".data, 0⟩] 1 "lucid".data (by decide)

/-- C2: `get_new_unique_word` calls the generator at most 5 times, and if
each of the first 5 attempts is unsuccessful (generation failure, empty
word, or a word already present case-insensitively), it makes exactly 5
calls, returns the failure sentinel, and leaves the store unchanged. -/
theorem resolver_attempt_bound (gen : Nat → Option (Str × Str × Str))
    (store : List WordEntry) (now : Nat) :
    (get_new_unique_word gen store now).2 ≤ 5 ∧
    ((∀ i, i < 5 → attempt_fails gen store i = true) →
      get_new_unique_word gen store now = (Except.ok (none, store), 5)) := by
  constructor
  · exact get_new_unique_word_aux_count gen now 5 0 store
  · intro h
    exact get_new_unique_word_aux_exhaust gen now store 5 0
      (fun j _ hj2 => h j (by omega))

theorem resolver_attempt_bound_witness :
    (get_new_unique_word (fun _ => some ("Lucid".data, "m".data, "x".data))
        [⟨"lucid".data, "m0".data, "x0".data, 0⟩] 1).2 ≤ 5 ∧
    get_new_unique_word (fun _ => some ("Lucid".data, "m".data, "x".data))
        [⟨"lucid".data, "m0".data, "x0".data, 0⟩] 1
      = (Except.ok (none, [⟨"lucid".data, "m0".data, "x0".data, 0⟩]), 5) := by
  refine ⟨(resolver_attempt_bound (fun _ => some ("Lucid".data, "m".data, "x".data))
      [⟨"lucid".data, "m0".data, "x0".data, 0⟩] 1).1,
    (resolver_attempt_bound (fun _ => some ("Lucid".data, "m".data, "x".data))
      [⟨"lucid".data, "m0".data, "x0".data, 0⟩] 1).2 ?_⟩
  intro i _
  rfl

/-- C3: one invocation of `get_new_unique_word` persists exactly one entry
(the returned triple, appended to the store) when it returns a successful
triple, and persists nothing at all when it returns the failure sentinel. -/
theorem resolver_persists_exactly_one_on_success
    (gen : Nat → Option (Str × Str × Str)) (store : List WordEntry) (now : Nat) :
    (∀ w m x s, (get_new_unique_word gen store now).1
        = Except.ok (some (w, m, x), s) → s = store ++ [⟨w, m, x, now⟩]) ∧
    (∀ s, (get_new_unique_word gen store now).1 = Except.ok (none, s) →
      s = store) := by
  unfold get_new_unique_word
  rcases get_new_unique_word_aux_shape gen now 5 0 store with
    hcase | ⟨w, m, x, hw, hex, hcase⟩
  · constructor
    · intro w m x s hs
      rw [hcase] at hs
      simp only [Except.ok.injEq, Prod.mk.injEq] at hs
      exact absurd hs.1 (by simp)
    · intro s hs
      rw [hcase] at hs
      simp only [Except.ok.injEq, Prod.mk.injEq] at hs
      exact hs.2.symm
  · constructor
    · intro w2 m2 x2 s hs
      rw [hcase] at hs
      simp only [Except.ok.injEq, Prod.mk.injEq, Option.some.injEq] at hs
      rcases hs with ⟨⟨rfl, rfl, rfl⟩, hs2⟩
      exact hs2.symm
    · intro s hs
      rw [hcase] at hs
      simp only [Except.ok.injEq, Prod.mk.injEq] at hs
      exact absurd hs.1 (by simp)

theorem resolver_persists_exactly_one_on_success_witness :
    [(⟨"lucid".data, "clear".data, "ex".data, 7⟩ : WordEntry)]
      = [] ++ [⟨"lucid".data, "clear".data, "ex".data, 7⟩] ∧
    [(⟨"old".data, "m".data, "x".data, 0⟩ : WordEntry)]
      = [⟨"old".data, "m".data, "x".data, 0⟩] := by
  constructor
  · exact (resolver_persists_exactly_one_on_success
      (fun _ => some ("lucid".data, "clear".data, "ex".data)) [] 7).1
      "lucid".data "clear".data "ex".data
      [⟨"lucid".data, "clear".data, "ex".data, 7⟩] rfl
  · exact (resolver_persists_exactly_one_on_success
      (fun _ => none) [⟨"old".data, "m".data, "x".data, 0⟩] 3).2
      [⟨"old".data, "m".data, "x".data, 0⟩] rfl

/-- C4: `generate_word` is all-or-nothing: whenever the HTTP status is not
200, or the stripped content does not split into at least three blank-line
separated parts, the result is the total-failure sentinel, never a partial
triple. -/
theorem generate_word_failure_is_total (resp : HttpResponse) :
    (resp.status_code ≠ 200 → generate_word resp = none) ∧
    ((split2nl (strip resp.content)).length < 3 → generate_word resp = none) := by
  constructor
  · intro h
    simp [generate_word, h]
  · intro h
    by_cases hst : resp.status_code = 200
    · rcases hsplit : split2nl (strip resp.content) with
        _ | ⟨p0, _ | ⟨p1, _ | ⟨p2, rest⟩⟩⟩
      · simp [generate_word, hst, hsplit]
      · simp [generate_word, hst, hsplit]
      · simp [generate_word, hst, hsplit]
      · rw [hsplit] at h
        simp at h
        omega
    · simp [generate_word, hst]

theorem generate_word_failure_is_total_witness :
    generate_word ⟨500, "Server Error".data⟩ = none ∧
    generate_word ⟨200, "Word: lucid\n\nMeaning: clear".data⟩ = none := by
  constructor
  · exact (generate_word_failure_is_total ⟨500, "Server Error".data⟩).1 (by decide)
  · exact (generate_word_failure_is_total
      ⟨200, "Word: lucid\n\nMeaning: clear".data⟩).2 (by decide)

/-- C5 counterexample: the claim says a `save_content` call for a word
already present under case-insensitive comparison fails with a uniqueness
violation in any casing; but with "Lucid" stored, saving "lucid" — present
case-insensitively — succeeds and inserts a second entry, because the
`UNIQUE` constraint on `content.word` is case-sensitive. -/
theorem save_content_case_claim_counterexample :
    word_exists [⟨"Lucid".data, "m".data, "x".data, 0⟩] "lucid".data = true ∧
    save_content [⟨"Lucid".data, "m".data, "x".data, 0⟩] "lucid".data
        "m2".data "x2".data 1
      = Except.ok [⟨"Lucid".data, "m".data, "x".data, 0⟩,
          ⟨"lucid".data, "m2".data, "x2".data, 1⟩] := by
  constructor
  · decide
  · rfl

/-- C5 (amended): `save_content` fails with the uniqueness-violation error
exactly when some stored entry carries literally the same word
(case-sensitive comparison); otherwise — even when the word is present in
a different casing — the insert succeeds and appends the new entry. -/
theorem save_content_exact_match_uniqueness (store : List WordEntry)
    (w m x : Str) (now : Nat) :
    ((∃ e ∈ store, e.word = w) →
      save_content store w m x now
        = Except.error "duplicate key value violates unique constraint".data) ∧
    ((∀ e ∈ store, e.word ≠ w) →
      save_content store w m x now = Except.ok (store ++ [⟨w, m, x, now⟩])) := by
  constructor
  · intro h
    rcases h with ⟨e, he, hew⟩
    have hany : store.any (fun e => e.word == w) = true := by
      rw [List.any_eq_true]
      exact ⟨e, he, by simp [hew]⟩
    simp [save_content, hany]
  · intro h
    have hany : store.any (fun e => e.word == w) = false := by
      rw [List.any_eq_false]
      intro e he
      simp [h e he]
    simp [save_content, hany]

theorem save_content_exact_match_uniqueness_witness :
    save_content [⟨"Lucid".data, "m".data, "x".data, 0⟩] "Lucid".data
        "m2".data "x2".data 1
      = Except.error "duplicate key value violates unique constraint".data ∧
    save_content [⟨"Lucid".data, "m".data, "x".data, 0⟩] "fresh".data
        "m2".data "x2".data 1
      = Except.ok [⟨"Lucid".data, "m".data, "x".data, 0⟩,
          ⟨"fresh".data, "m2".data, "x2".data, 1⟩] := by
  constructor
  · exact (save_content_exact_match_uniqueness
      [⟨"Lucid".data, "m".data, "x".data, 0⟩] "Lucid".data "m2".data "x2".data 1).1
      ⟨⟨"Lucid".data, "m".data, "x".data, 0⟩, by decide, rfl⟩
  · exact (save_content_exact_match_uniqueness
      [⟨"Lucid".data, "m".data, "x".data, 0⟩] "fresh".data "m2".data "x2".data 1).2
      (by decide)

/-- C6: when delivery to one subscribed identity fails, the broadcast loop
still attempts every identity in the list (so all remaining N-1 as well),
logs the failure, and the failure never propagates out of the loop. -/
theorem broadcast_attempts_all_despite_failure
    (send : Int → Except Str Unit) (users : List Int) (c : Int) (e : Str)
    (hc : c ∈ users) (hfail : send c = Except.error e) :
    (send_daily_word_loop send users).1 = users ∧
    ("Failed to send to ".data ++ (toString c).data ++ ": ".data ++ e)
      ∈ (send_daily_word_loop send users).2 :=
  ⟨send_daily_word_loop_attempts_all send users,
   send_daily_word_loop_logs send e users c hc hfail⟩

theorem broadcast_attempts_all_despite_failure_witness :
    (send_daily_word_loop
        (fun i => if i = 2 then Except.error "boom".data else Except.ok ())
        [1, 2, 3]).1 = [1, 2, 3] ∧
    ("Failed to send to ".data ++ (toString (2 : Int)).data ++ ": ".data
        ++ "boom".data)
      ∈ (send_daily_word_loop
          (fun i => if i = 2 then Except.error "boom".data else Except.ok ())
          [1, 2, 3]).2 :=
  broadcast_attempts_all_despite_failure
    (fun i => if i = 2 then Except.error "boom".data else Except.ok ())
    [1, 2, 3] 2 "boom".data (by decide) rfl

/-- C7: starting from a table satisfying the uniqueness invariant (at most
one row per chat id), `subscribe_user` then `unsubscribe_user` for the same
identity leaves exactly one row for it, that row is unsubscribed, and the
identity is absent from `get_subscribed_users`. -/
theorem subscribe_then_unsubscribe_state (db : List UserRec) (c : Int) (now : Nat)
    (h : (db.filter (fun u => u.chat_id == c)).length ≤ 1) :
    (((unsubscribe_user (subscribe_user db c now) c).filter
        (fun u => u.chat_id == c)).length = 1) ∧
    (∀ u ∈ unsubscribe_user (subscribe_user db c now) c,
        u.chat_id = c → u.subscribed = false) ∧
    c ∉ get_subscribed_users (unsubscribe_user (subscribe_user db c now) c) := by
  have hflag : ∀ u : UserRec,
      ((if u.chat_id == c then { u with subscribed := false } else u) : UserRec).chat_id
        = u.chat_id := by
    intro u
    by_cases hc : u.chat_id = c <;> simp [hc]
  refine ⟨?_, unsubscribe_user_matching_false _ c, ?_⟩
  · rw [unsubscribe_user, filter_chatid_map _ c _ hflag]
    by_cases hex : db.any (fun u => u.chat_id == c) = true
    · have hflag2 : ∀ u : UserRec,
          ((if u.chat_id == c then { u with subscribed := true } else u) : UserRec).chat_id
            = u.chat_id := by
        intro u
        by_cases hc : u.chat_id = c <;> simp [hc]
      rw [subscribe_user, if_pos hex, filter_chatid_map _ c _ hflag2]
      rcases List.any_eq_true.mp hex with ⟨v, hv, hvc⟩
      have hvmem : v ∈ db.filter (fun u => u.chat_id == c) :=
        List.mem_filter.mpr ⟨hv, hvc⟩
      have hpos : 0 < (db.filter (fun u => u.chat_id == c)).length :=
        List.length_pos_of_mem hvmem
      omega
    · rw [subscribe_user, if_neg hex, List.filter_append]
      have h0 : db.filter (fun u => u.chat_id == c) = [] := by
        rw [List.filter_eq_nil_iff]
        intro u hu hc2
        exact hex (List.any_eq_true.mpr ⟨u, hu, hc2⟩)
      simp [h0]
  · intro hmem
    rw [get_subscribed_users] at hmem
    rcases List.mem_map.mp hmem with ⟨u, hu, huc⟩
    have hu2 := List.mem_filter.mp hu
    have hfalse := unsubscribe_user_matching_false _ c u hu2.1 huc
    rw [hfalse] at hu2
    exact absurd hu2.2 (by simp)

theorem subscribe_then_unsubscribe_state_witness :
    (((unsubscribe_user (subscribe_user [] 9 2) 9).filter
        (fun u => u.chat_id == 9)).length = 1) ∧
    (∀ u ∈ unsubscribe_user (subscribe_user [] 9 2) 9,
        u.chat_id = 9 → u.subscribed = false) ∧
    (9 : Int) ∉ get_subscribed_users (unsubscribe_user (subscribe_user [] 9 2) 9) :=
  subscribe_then_unsubscribe_state [] 9 2 (by decide)

/-- C8: an attempt whose generated word is the empty string is handled
exactly like a generation failure — replacing such an attempt by a failing
one changes nothing about the invocation (result, final store, call
count) — and consequently an empty word is never stored. -/
theorem empty_word_attempt_is_failure (gen : Nat → Option (Str × Str × Str))
    (i : Nat) (m x : Str) (store : List WordEntry) (now : Nat)
    (hstore : ∀ e ∈ store, e.word ≠ []) :
    get_new_unique_word (fun j => if j = i then some ([], m, x) else gen j)
        store now
      = get_new_unique_word (fun j => if j = i then none else gen j) store now ∧
    (∀ r s, (get_new_unique_word gen store now).1 = Except.ok (r, s) →
      ∀ e ∈ s, e.word ≠ []) := by
  constructor
  · apply get_new_unique_word_aux_blank_congr
    intro j
    by_cases hj : j = i
    · exact Or.inr ⟨⟨m, x, by simp [hj]⟩, by simp [hj]⟩
    · exact Or.inl (by simp [hj])
  · unfold get_new_unique_word
    intro r s hs e he
    rcases get_new_unique_word_aux_shape gen now 5 0 store with
      hcase | ⟨w, m2, x2, hw, hex, hcase⟩
    · rw [hcase] at hs
      simp only [Except.ok.injEq, Prod.mk.injEq] at hs
      rcases hs with ⟨_, rfl⟩
      exact hstore e he
    · rw [hcase] at hs
      simp only [Except.ok.injEq, Prod.mk.injEq] at hs
      rcases hs with ⟨_, rfl⟩
      rcases List.mem_append.mp he with hmem | hmem
      · exact hstore e hmem
      · simp only [List.mem_singleton] at hmem
        rw [hmem]
        exact hw

theorem empty_word_attempt_is_failure_witness :
    (get_new_unique_word
        (fun j => if j = 0 then some ([], "m".data, "x".data)
          else some ("lucid".data, "clear".data, "ex".data)) [] 4
      = get_new_unique_word
        (fun j => if j = 0 then none
          else some ("lucid".data, "clear".data, "ex".data)) [] 4) ∧
    (∀ r s, (get_new_unique_word
        (fun _ => some ("lucid".data, "clear".data, "ex".data)) [] 4).1
        = Except.ok (r, s) → ∀ e ∈ s, e.word ≠ []) :=
  empty_word_attempt_is_failure
    (fun _ => some ("lucid".data, "clear".data, "ex".data))
    0 "m".data "x".data [] 4 (by simp)

/-- C9: a 200 response whose content has four blank-line-separated
paragraphs in the expected layout parses successfully into the triple built
from the first three paragraphs, silently ignoring the extra text. -/
theorem generate_word_ignores_extra_paragraphs :
    (split2nl (strip
        "Word: lucid\n\nMeaning: clear\n\nExample: a lucid explanation\n\nNote: extra".data)).length
      = 4 ∧
    generate_word ⟨200,
        "Word: lucid\n\nMeaning: clear\n\nExample: a lucid explanation\n\nNote: extra".data⟩
      = some ("lucid".data, "clear".data, "a lucid explanation".data) := by
  constructor
  · decide
  · rfl

/-- C10: re-subscribing an already-present identity only flips its
`subscribed` flag to true: the row count is unchanged and each row keeps
its chat id and creation timestamp, with non-matching rows untouched. -/
theorem subscribe_existing_only_sets_flag (db : List UserRec) (c : Int) (now : Nat)
    (h : db.any (fun u => u.chat_id == c) = true) :
    (subscribe_user db c now).length = db.length ∧
    List.Forall₂ (fun u v => v.chat_id = u.chat_id ∧ v.created_at = u.created_at ∧
        v.subscribed = (u.chat_id == c || u.subscribed)) db
      (subscribe_user db c now) := by
  rw [subscribe_user, if_pos h]
  constructor
  · exact List.length_map db _
  · rw [List.forall₂_map_right_iff]
    rw [List.forall₂_same]
    intro u _
    by_cases hc : u.chat_id = c <;> simp [hc]

theorem subscribe_existing_only_sets_flag_witness :
    (subscribe_user [⟨5, false, 3⟩] 5 9).length
      = [(⟨5, false, 3⟩ : UserRec)].length ∧
    List.Forall₂ (fun (u v : UserRec) => v.chat_id = u.chat_id ∧
        v.created_at = u.created_at ∧
        v.subscribed = (u.chat_id == 5 || u.subscribed))
      [⟨5, false, 3⟩] (subscribe_user [⟨5, false, 3⟩] 5 9) :=
  subscribe_existing_only_sets_flag [⟨5, false, 3⟩] 5 9 (by decide)

end WOD

section Sanity

open WOD

example : split2nl "a\n\nb\n\nc".data = ["a".data, "b".data, "c".data] := by decide

example : replaceAll "Word: lucid".data "Word: ".data = "lucid".data := by decide

example : strip "  hi\n".data = "hi".data := by decide

example : lower "LuCid".data = "lucid".data := by decide

example :
    generate_word ⟨200, "Word: lucid\n\nMeaning: clear\n\nExample: a lucid explanation".data⟩
      = some ("lucid".data, "clear".data, "a lucid explanation".data) := by decide

example : generate_word ⟨200, "Word: lucid\n\nMeaning: clear".data⟩ = none := by decide

example : generate_word ⟨404, "whatever".data⟩ = none := by decide

example : word_exists [⟨"Lucid".data, "m".data, "e".data, 0⟩] "lUCID".data = true := by decide

end Sanity
